import Mathlib

/-!
Verification development for the neon-builder generation-and-packaging
pipeline.  The JavaScript sources are shallowly embedded: pure helpers
become Lean functions, the stateful cost tracker becomes explicit state
passing, promise-based code with retries becomes fuel recursion returning
`Except`, and the object heap (needed for aliasing facts about the cost
tracker) becomes an explicit address-indexed store.  Dollar amounts are
rationals; token counts are naturals.
-/

namespace NeonBuilder

/-- Pricing per 1K tokens in USD, mirroring the `{input, output}` records of
`src/utils/cost-calculator.js`. -/
structure Pricing where
  input : ℚ
  output : ℚ
deriving DecidableEq

/-- `MODEL_PRICING` from `src/utils/cost-calculator.js`, as an association
list in the object-literal insertion order (JS string-keyed objects preserve
insertion order, which the lookup loop below depends on). -/
def MODEL_PRICING : List (String × Pricing) :=
  [ ("gpt-4-turbo", ⟨0.01, 0.03⟩),
    ("gpt-4-turbo-preview", ⟨0.01, 0.03⟩),
    ("gpt-4-1106-preview", ⟨0.01, 0.03⟩),
    ("gpt-4-0125-preview", ⟨0.01, 0.03⟩),
    ("gpt-4", ⟨0.03, 0.06⟩),
    ("gpt-4-0613", ⟨0.03, 0.06⟩),
    ("gpt-4-32k", ⟨0.06, 0.12⟩),
    ("gpt-4-32k-0613", ⟨0.06, 0.12⟩),
    ("gpt-4o", ⟨0.005, 0.015⟩),
    ("gpt-4o-2024-05-13", ⟨0.005, 0.015⟩),
    ("gpt-4o-mini", ⟨0.00015, 0.0006⟩),
    ("gpt-4o-mini-2024-07-18", ⟨0.00015, 0.0006⟩),
    ("gpt-3.5-turbo", ⟨0.0005, 0.0015⟩),
    ("gpt-3.5-turbo-0125", ⟨0.0005, 0.0015⟩),
    ("gpt-3.5-turbo-1106", ⟨0.001, 0.002⟩),
    ("gpt-3.5-turbo-instruct", ⟨0.0015, 0.002⟩),
    ("gpt-3.5-turbo-16k", ⟨0.003, 0.004⟩) ]

/-- `DEFAULT_PRICING` from `src/utils/cost-calculator.js`. -/
def DEFAULT_PRICING : Pricing := ⟨0.03, 0.06⟩

/-- JS `String.prototype.toLowerCase`, modelled on the character list so
that concrete evaluations reduce in the kernel. -/
def jsToLower (s : String) : String := ⟨s.data.map Char.toLower⟩

/-- JS `a.startsWith(b)`, modelled on the character lists. -/
def jsStartsWith (s pre : String) : Bool := pre.data.isPrefixOf s.data

/-- A value the tier-1 read `MODEL_PRICING[model]` can produce: one of the
table's own rate records, or a member inherited from `Object.prototype`
(the table is a plain object literal, so bracket indexing walks the
prototype chain; every inherited member is a function or object, hence
truthy, but none is a rate record). -/
inductive JSPricingValue where
  | pricing (p : Pricing)
  | protoMember (name : String)
deriving DecidableEq

/-- The member names every plain object literal inherits from
`Object.prototype` (including the `__proto__` accessor); indexing
`MODEL_PRICING` with any of these yields a truthy non-pricing value. -/
def OBJECT_PROTO_KEYS : List String :=
  ["constructor", "hasOwnProperty", "isPrototypeOf", "propertyIsEnumerable",
   "toLocaleString", "toString", "valueOf", "__proto__",
   "__defineGetter__", "__defineSetter__", "__lookupGetter__",
   "__lookupSetter__"]

/-- The truthy result of `MODEL_PRICING[model]`, if any: an own entry's
rate record; else the inherited `Object.prototype` member of that name;
else nothing (`undefined`, which is falsy). -/
def modelPricingIndex (model : String) : Option JSPricingValue :=
  match MODEL_PRICING.find? (fun e => e.1 == model) with
  | some e => some (.pricing e.2)
  | none =>
    if model ∈ OBJECT_PROTO_KEYS then some (.protoMember model) else none

/-- `getModelPricing` from `src/utils/cost-calculator.js`:
`if (MODEL_PRICING[model]) return MODEL_PRICING[model]` returns whatever
truthy value the prototype-chain read produced — for a model named like an
inherited `Object.prototype` member that is the inherited function/object
itself, not a rate record.  Otherwise it scans the table in insertion
order accepting the first entry whose key is related to the lowercased
model by prefixing in either direction
(`modelLower.startsWith(key) || key.startsWith(modelLower)`), then falls
back to the default. -/
def getModelPricing (model : String) : JSPricingValue :=
  match modelPricingIndex model with
  | some v => v
  | none =>
    let modelLower := jsToLower model
    match MODEL_PRICING.find?
        (fun e => jsStartsWith modelLower e.1 || jsStartsWith e.1 modelLower) with
    | some e => .pricing e.2
    | none => .pricing DEFAULT_PRICING

/-- The numeric restriction of `getModelPricing`, used to embed
`calculateCost` and the cost tracker over exact rationals: it agrees with
the source whenever the tier-1 read does not hit an inherited prototype
member (`getModelPricing_agrees_off_prototype` below).  On a prototype hit
the source carries the inherited non-numeric object forward and computes
NaN costs, which have no rational counterpart; claims touching that corner
are settled against `getModelPricing` itself. -/
def numericModelPricing (model : String) : Pricing :=
  match MODEL_PRICING.find? (fun e => e.1 == model) with
  | some e => e.2
  | none =>
    let modelLower := jsToLower model
    match MODEL_PRICING.find?
        (fun e => jsStartsWith modelLower e.1 || jsStartsWith e.1 modelLower) with
    | some e => e.2
    | none => DEFAULT_PRICING

/-- Modelled from the spec (§4.1 `pricingFor`), for comparison with
`getModelPricing`: exact lookup, else the pricing of the longest table key
that is a (case-insensitive) prefix of the model, else the default. -/
def specPricingFor (model : String) : Pricing :=
  match MODEL_PRICING.find? (fun e => e.1 == model) with
  | some e => e.2
  | none =>
    let modelLower := jsToLower model
    let candidates := MODEL_PRICING.filter (fun e => jsStartsWith modelLower e.1)
    match candidates.foldl
        (fun best e =>
          match best with
          | none => some e
          | some b => if e.1.data.length > b.1.data.length then some e else some b)
        none with
    | some e => e.2
    | none => DEFAULT_PRICING

/-- Token usage record (`{promptTokens, completionTokens, totalTokens}`). -/
structure Usage where
  promptTokens : Nat
  completionTokens : Nat
  totalTokens : Nat
deriving DecidableEq

/-- A usage record as received from an API response or caller, where any
field may be absent (JS `undefined`). -/
structure OptUsage where
  promptTokens : Option Nat
  completionTokens : Option Nat
  totalTokens : Option Nat
deriving DecidableEq

/-- `calculateCost` from `src/utils/cost-calculator.js`, over the numeric
restriction of the pricing resolution (see `numericModelPricing`). -/
def calculateCost (usage : Usage) (model : String) : ℚ :=
  let pricing := numericModelPricing model
  let inputCost := ((usage.promptTokens : ℚ) / 1000) * pricing.input
  let outputCost := ((usage.completionTokens : ℚ) / 1000) * pricing.output
  inputCost + outputCost

example : getModelPricing "gpt-4" = .pricing ⟨0.03, 0.06⟩ := rfl
example : getModelPricing "unknown-model-xyz" = .pricing ⟨0.03, 0.06⟩ := rfl
example : getModelPricing "gpt-4-32k-0613x" = .pricing ⟨0.03, 0.06⟩ := rfl
example : getModelPricing "constructor" = .protoMember "constructor" := rfl
example : numericModelPricing "gpt-4" = ⟨0.03, 0.06⟩ := rfl
example : specPricingFor "gpt-4-32k-0613x" = ⟨0.06, 0.12⟩ := rfl
example : calculateCost ⟨1000, 500, 1500⟩ "gpt-4" = 0.06 := by
  have h : numericModelPricing "gpt-4" = ⟨0.03, 0.06⟩ := rfl
  simp only [calculateCost, h]
  norm_num

/-! ## Cost tracker (functional view)

`createCostTracker` in `src/utils/cost-calculator.js` closes over a mutable
`totalUsage` record and a mutable `totalCost` number.  For the accumulation
claims the closure state is embedded as an explicit record threaded through
`addUsage`; aliasing questions are treated separately with a heap model
below. -/

/-- The closure state of a tracker returned by `createCostTracker`. -/
structure TrackerState where
  totalUsage : Usage
  totalCost : ℚ
deriving DecidableEq

/-- Initial closure state of `createCostTracker` (all counters zero). -/
def initTracker : TrackerState := ⟨⟨0, 0, 0⟩, 0⟩

/-- One accumulation step on the three counters, with JS `|| 0` defaulting
for absent fields (`usage.promptTokens || 0` etc.). -/
def accUsage (acc : Usage) (u : OptUsage) : Usage :=
  ⟨acc.promptTokens + u.promptTokens.getD 0,
   acc.completionTokens + u.completionTokens.getD 0,
   acc.totalTokens + u.totalTokens.getD 0⟩

/-- `addUsage` of the tracker: each counter is incremented by the incoming
field with JS `|| 0` defaulting for absent fields, then `totalCost` is
recomputed from the accumulated usage. -/
def addUsage (model : String) (s : TrackerState) (u : OptUsage) : TrackerState :=
  let tu := accUsage s.totalUsage u
  ⟨tu, calculateCost tu model⟩

/-- `getTotalCost` of the tracker: returns the stored `totalCost`. -/
def getTotalCost (s : TrackerState) : ℚ := s.totalCost

/-- Componentwise sum of a list of (possibly partial) usage records, with
absent fields contributing 0: the reference value for the accumulation
claims. -/
def sumOptUsage (us : List OptUsage) : Usage :=
  us.foldl accUsage ⟨0, 0, 0⟩

/-! ## Section catalog (`src/config/sections.js`) -/

/-- One entry of `SECTIONS` in `src/config/sections.js`. -/
structure Section where
  id : String
  label : String
  defaultChunks : Nat
  description : String
deriving DecidableEq

/-- `SECTIONS` from `src/config/sections.js` (the long `promptTemplate`
strings are omitted: no claim depends on their content, only on ids, labels
and default chunk counts). -/
def SECTIONS : List Section :=
  [ ⟨"core_prompts", "Core Edition Prompts", 12,
      "300 strategic prompts → 12 categories × 25 prompts"⟩,
    ⟨"premium_prompts", "Premium Edition Prompts", 14,
      "700 advanced prompts → 14 chunks × 50"⟩,
    ⟨"automation", "Automation Workflows", 5,
      "75 automation workflows → 5 chunks × 15"⟩,
    ⟨"sales_pages", "Sales Pages (FE, OTO1, OTO2, Downsell, Lead Magnet)", 5,
      "All funnel sales pages"⟩,
    ⟨"thank_you", "Thank You Pages", 5,
      "FE, OTO1, OTO2, Downsell, Lead Magnet"⟩,
    ⟨"launch_emails", "Launch Email Sequences", 2,
      "Customer launch + affiliate launch"⟩,
    ⟨"affiliate_toolkit", "Affiliate Toolkit", 4,
      "JV copy, banners text, email swipes, scripts"⟩,
    ⟨"branding", "Branding Docs", 2,
      "Color palette, typography, logo description"⟩,
    ⟨"jvzoo_docs", "JVZoo Listing & Funnel Docs", 3,
      "Product listings, prices, funnel wiring"⟩,
    ⟨"readmes", "README & Licensing", 3,
      "README, install, license"⟩ ]

/-- `getSectionById` from `src/config/sections.js`. -/
def getSectionById (id : String) : Option Section :=
  SECTIONS.find? (fun s => s.id == id)

example : (getSectionById "core_prompts").isSome = true := rfl
example : getSectionById "unknown_section_xyz" = none := rfl

/-! ## Chunk generator (`src/generators/content-generator.js`)

`generateChunk` calls `client.chat.completions.create` inside a
`for (attempt = 1; attempt <= maxRetries; attempt++)` loop.  The client is
embedded as a stub mapping the global invocation count to an outcome: a
resolved completion carrying `choices[0]?.message?.content` (absent or empty
string both fail the JS `!content` check) and an optional usage record, or a
rejected promise carrying `error.status` and `error.message`.  Sleeps and
`console.warn` lines are observability only and are not modelled. -/

/-- Outcome of one `client.chat.completions.create` invocation. -/
inductive CallResult where
  | response (content : Option String) (usage : OptUsage)
  | failure (status : Option Nat) (message : String)
deriving DecidableEq

/-- A client stub: outcome of the k-th invocation (0-based). -/
def Client := Nat → CallResult

/-- Usage extraction from a response:
`completion.usage?.prompt_tokens || 0` and friends. -/
def extractUsage (u : OptUsage) : Usage :=
  ⟨u.promptTokens.getD 0, u.completionTokens.getD 0, u.totalTokens.getD 0⟩

/-- The exhaustion error thrown after the loop:
`Failed to generate content after ${maxRetries} attempts: ${lastError?.message || 'Unknown error'}`. -/
def exhaustMsg (maxRetries : Nat) (lastErr : Option String) : String :=
  "Failed to generate content after " ++ toString maxRetries ++ " attempts: " ++
    lastErr.getD "Unknown error"

/-- The message of the error thrown when `!content`. -/
def emptyResponseMsg : String := "Empty response from OpenAI API"

/-- The message of the error thrown on `error.status === 401`. -/
def invalidKeyMsg : String := "Invalid OpenAI API key"

/-- The attempt loop of `generateChunk`, recursing on the number of
remaining attempts.  `calls` is the global client invocation count (used to
index the stub), `lastErr` the message of the last caught error.  An empty
`choices[0]?.message?.content` raises the empty-response error, which the
surrounding `catch` records like any other failure; a 401 failure is
re-thrown at once as a fresh `Invalid OpenAI API key` error; 429 and all
other failures consume the attempt and continue (their differing sleeps are
not modelled). -/
def generateChunkAux (client : Client) (maxRetries : Nat) :
    Nat → Nat → Option String → (Except String (String × Usage)) × Nat
  | 0, calls, lastErr => (.error (exhaustMsg maxRetries lastErr), calls)
  | remaining + 1, calls, _lastErr =>
    match client calls with
    | .response content usage =>
      if content.getD "" = "" then
        generateChunkAux client maxRetries remaining (calls + 1) (some emptyResponseMsg)
      else
        (.ok (content.getD "", extractUsage usage), calls + 1)
    | .failure status message =>
      if status = some 401 then
        (.error invalidKeyMsg, calls + 1)
      else
        generateChunkAux client maxRetries remaining (calls + 1) (some message)

/-- `generateChunk`, from a given starting invocation count: returns the
settled result together with the invocation count after it returns. -/
def generateChunkFrom (client : Client) (maxRetries startCalls : Nat) :
    (Except String (String × Usage)) × Nat :=
  generateChunkAux client maxRetries maxRetries startCalls none

/-- `generateChunk` with a fresh client (invocation count 0).  The result's
second component is the number of client invocations made. -/
def generateChunk (client : Client) (maxRetries : Nat) :
    (Except String (String × Usage)) × Nat :=
  generateChunkFrom client maxRetries 0

example :
    generateChunk (fun _ => .response (some "") ⟨none, none, none⟩) 1 =
      (.error "Failed to generate content after 1 attempts: Empty response from OpenAI API", 1) :=
  rfl

example :
    generateChunk (fun _ => .failure (some 401) "secret upstream text") 5 =
      (.error "Invalid OpenAI API key", 1) :=
  rfl

example :
    generateChunk (fun _ => .response (some "hello") ⟨some 10, some 5, some 15⟩) 3 =
      (.ok ("hello", ⟨10, 5, 15⟩), 1) :=
  rfl

example :
    generateChunk (fun _ => .failure none "boom") 0 =
      (.error "Failed to generate content after 0 attempts: Unknown error", 0) :=
  rfl

/-! ## Section orchestrator (`generateSection`)

`generateSection` looks up the section, then runs `generateChunk` for
`chunkIndex` 0..numChunks-1 sequentially, pushing each content, summing
usage, and invoking `onProgress(chunkIndex, content, usage)` after each
successful chunk.  The embedding additionally records an event trace:
one `call` event per client invocation and one `progress` event per
`onProgress` invocation (`onProgress` is assumed provided; when absent the
code merely skips the callback). -/

/-- Componentwise addition of usage records (the accumulation
`totalUsage.promptTokens += usage.promptTokens` etc.). -/
instance : Add Usage :=
  ⟨fun a b =>
    ⟨a.promptTokens + b.promptTokens, a.completionTokens + b.completionTokens,
     a.totalTokens + b.totalTokens⟩⟩

/-- Componentwise sum of a list of usage records. -/
def sumUsageList (l : List Usage) : Usage := l.foldl (· + ·) ⟨0, 0, 0⟩

/-- Observable events of one `generateSection` run. -/
inductive SEvent where
  | call (k : Nat)
  | progress (i : Nat) (content : String) (usage : Usage)
deriving DecidableEq

/-- The `call` events for invocations `startCalls..startCalls+made-1`. -/
def callEvents (startCalls made : Nat) : List SEvent :=
  (List.range made).map (fun j => .call (startCalls + j))

/-- The chunk loop of `generateSection`: `i` is the next `chunkIndex`,
`calls` the global client invocation count; chunk contents, accumulated
usage and the event trace are threaded through. -/
def generateSectionAux (client : Client) (maxRetries : Nat) :
    Nat → Nat → Nat → List String → Usage → List SEvent →
      (Except String (List String × Usage)) × List SEvent
  | 0, _i, _calls, chunks, tu, tr => (.ok (chunks, tu), tr)
  | remaining + 1, i, calls, chunks, tu, tr =>
    match generateChunkFrom client maxRetries calls with
    | (.error e, calls') => (.error e, tr ++ callEvents calls (calls' - calls))
    | (.ok (content, usage), calls') =>
      generateSectionAux client maxRetries remaining (i + 1) calls'
        (chunks ++ [content]) (tu + usage)
        (tr ++ callEvents calls (calls' - calls) ++ [.progress i content usage])

/-- `generateSection` from `src/generators/content-generator.js`: unknown
section ids fail with `Unknown section ID: ...` before any client call. -/
def generateSection (client : Client) (sectionId : String)
    (numChunks maxRetries : Nat) :
    (Except String (List String × Usage)) × List SEvent :=
  match getSectionById sectionId with
  | none => (.error ("Unknown section ID: " ++ sectionId), [])
  | some _ => generateSectionAux client maxRetries numChunks 0 0 [] ⟨0, 0, 0⟩ []

example :
    generateSection (fun k => .response (some ("c" ++ toString k))
        ⟨some 100, some 50, some 150⟩) "core_prompts" 3 3 =
      (.ok (["c0", "c1", "c2"], ⟨300, 150, 450⟩),
       [.call 0, .progress 0 "c0" ⟨100, 50, 150⟩,
        .call 1, .progress 1 "c1" ⟨100, 50, 150⟩,
        .call 2, .progress 2 "c2" ⟨100, 50, 150⟩]) :=
  rfl

example :
    generateSection (fun _ => .failure none "x") "unknown_section_xyz" 3 3 =
      (.error "Unknown section ID: unknown_section_xyz", []) :=
  rfl

/-! ## ZIP packager (`src/generators/zip-packager.js`)

A section directory is embedded as the list of its (filename, content)
pairs in read order; an archive as the list of its (entry name, content)
pairs.  `createSectionZip` builds the extension allow-list from the two
flags, `extensions.length > 0 ? extensions : null`, and adds the
non-recursive directory contents under the `sectionId` prefix;
`addDirectoryToZip` skips a file only when a non-`null` allow-list does not
contain `path.extname(file).toLowerCase()`. -/

/-- The suffix of a character list starting at its last `'.'`. -/
def lastDotSuffix : List Char → Option (List Char)
  | [] => none
  | c :: cs =>
    match lastDotSuffix cs with
    | some s => some s
    | none => if c = '.' then some (c :: cs) else none

/-- Node `path.extname` for plain basenames: the substring from the last
dot, where a dot at index 0 does not count. -/
def extname (f : String) : String :=
  match f.data with
  | [] => ""
  | _ :: cs =>
    match lastDotSuffix cs with
    | some s => ⟨s⟩
    | none => ""

example : extname "file.txt" = ".txt" := rfl
example : extname "file.tar.gz" = ".gz" := rfl
example : extname "file" = "" := rfl
example : extname ".txt" = "" := rfl

/-- `createSectionZip`: returns the entry list of the produced
`<sectionId>.zip`.  With `extensions = []` the source passes `null` to
`addDirectoryToZip`, i.e. no filter at all: every file of the section
directory is archived. -/
def createSectionZip (sectionId : String) (dirFiles : List (String × String))
    (includeSourceFiles includePdfs : Bool) : List (String × String) :=
  let extensions : List String :=
    (if includeSourceFiles then [".txt"] else []) ++
      (if includePdfs then [".pdf"] else [])
  let filter : Option (List String) :=
    if extensions.length > 0 then some extensions else none
  dirFiles.filterMap (fun f =>
    match filter with
    | some exts =>
      if exts.contains (jsToLower (extname f.1)) then
        some (sectionId ++ "/" ++ f.1, f.2)
      else
        none
    | none => some (sectionId ++ "/" ++ f.1, f.2))

example :
    createSectionZip "s" [("s.txt", "T"), ("s.pdf", "P"), ("notes.md", "N")] true true =
      [("s/s.txt", "T"), ("s/s.pdf", "P")] :=
  rfl

example :
    createSectionZip "s" [("s.txt", "T")] false false = [("s/s.txt", "T")] :=
  rfl

/-! ## Build coordinator (`src/index.js`)

`build` computes the per-section work list by looking each selected id up
in the catalog — ids with no catalog entry are skipped by the
`if (section)` guard — then runs `processSection` for each entry in order.
`processSection` generates the chunks via `generateChunk` (collecting the
texts in memory; no per-chunk file is written), writes the single combined
`.txt`, optionally renders one combined PDF, and builds the section zip
with `includeSourceFiles: false` and `includePdfs: config.generatePDFs`.
The embedding records the observable per-section events; progress-bar and
logger output are observability only and not modelled.  The render adapter
is a black-box parameter from combined text to PDF bytes. -/

/-- The effective chunk count:
`chunkOverrides[sectionId] || section.defaultChunks` (JS `||`, so a 0
override also falls back to the default). -/
def buildChunkCount (overrides : String → Option Nat) (sec : Section) : Nat :=
  match overrides sec.id with
  | some v => if v = 0 then sec.defaultChunks else v
  | none => sec.defaultChunks

/-- The `sectionWork` list of `build`: selected ids resolved against the
catalog, unknown ids silently dropped. -/
def buildSectionWork (selectedSections : List String)
    (overrides : String → Option Nat) : List (Section × Nat) :=
  selectedSections.filterMap (fun sid =>
    (getSectionById sid).map (fun s => (s, buildChunkCount overrides s)))

/-- Observable events of one `processSection` run. -/
inductive PEvent where
  | request (chunk : Nat) (call : Nat)
  | chunkDone (chunk : Nat)
  | writeCombined (path : String) (content : String)
  | renderPdf (path : String)
  | zipWrite (path : String) (entries : List (String × String))
deriving DecidableEq

/-- The `request` events for the invocations a chunk's `generateChunk`
performed. -/
def reqEvents (chunk startCalls made : Nat) : List PEvent :=
  (List.range made).map (fun j => .request chunk (startCalls + j))

/-- The fixed chunk separator `'\n\n---\n\n'` of `processSection`. -/
def sectionSeparator : String := "\n\n---\n\n"

/-- The chunk-collection loop of `processSection`: chunk texts are pushed
onto an in-memory list; nothing is written to disk here. -/
def processChunksAux (client : Client) (maxRetries : Nat) :
    Nat → Nat → Nat → List String → List PEvent →
      (Except String (List String × Nat)) × List PEvent
  | 0, _i, calls, contents, tr => (.ok (contents, calls), tr)
  | remaining + 1, i, calls, contents, tr =>
    match generateChunkFrom client maxRetries calls with
    | (.error e, calls') => (.error e, tr ++ reqEvents i calls (calls' - calls))
    | (.ok (content, _usage), calls') =>
      processChunksAux client maxRetries remaining (i + 1) calls'
        (contents ++ [content])
        (tr ++ reqEvents i calls (calls' - calls) ++ [.chunkDone i])

/-- Result record of `processSection` (paths relative to the run's output
directory; the archive's entry list stands in for the zip file). -/
structure SectionOut where
  sectionId : String
  numChunks : Nat
  txtPath : String
  pdfPath : Option String
  zipPath : String
  zipEntries : List (String × String)
  endCalls : Nat
deriving DecidableEq

/-- `processSection` from `src/index.js`: generate all chunks in memory,
join them with the fixed separator, write the combined `.txt` once, render
one combined PDF when `generatePDFs`, then build the section zip with
`includeSourceFiles: false` and `includePdfs: generatePDFs` over the
section directory contents. -/
def processSection (client : Client) (maxRetries : Nat) (sec : Section)
    (numChunks : Nat) (generatePDFs : Bool) (render : String → String)
    (startCalls : Nat) : (Except String SectionOut) × List PEvent :=
  match processChunksAux client maxRetries numChunks 0 startCalls [] [] with
  | (.error e, tr) => (.error e, tr)
  | (.ok (contents, calls'), tr) =>
    let combinedContent := String.intercalate sectionSeparator contents
    let txtName := sec.id ++ ".txt"
    let txtPath := sec.id ++ "/" ++ txtName
    let pdfName := sec.id ++ "_chunk_01.pdf"
    let pdfFiles := if generatePDFs then [(pdfName, render combinedContent)] else []
    let dirFiles := [(txtName, combinedContent)] ++ pdfFiles
    let zipEntries := createSectionZip sec.id dirFiles false generatePDFs
    let zipPath := sec.id ++ ".zip"
    (.ok ⟨sec.id, numChunks, txtPath,
        if generatePDFs then some (sec.id ++ "/" ++ pdfName) else none,
        zipPath, zipEntries, calls'⟩,
      tr ++ [.writeCombined txtPath combinedContent] ++
        (if generatePDFs then [.renderPdf (sec.id ++ "/" ++ pdfName)] else []) ++
        [.zipWrite zipPath zipEntries])

/-- The per-section loop of `build`: runs `processSection` for each work
item in order, aborting the whole run on the first failure. -/
def buildSections (client : Client) (maxRetries : Nat) (generatePDFs : Bool)
    (render : String → String) :
    List (Section × Nat) → Nat → (Except String (List SectionOut))
  | [], _calls => .ok []
  | (sec, n) :: rest, calls =>
    match processSection client maxRetries sec n generatePDFs render calls with
    | (.error e, _) => .error e
    | (.ok out, _) =>
      match buildSections client maxRetries generatePDFs render rest out.endCalls with
      | .error e => .error e
      | .ok outs => .ok (out :: outs)

/-- The section-processing phase of `build`: resolve the work list (unknown
ids dropped) and process every resolved section. -/
def buildRun (client : Client) (maxRetries : Nat)
    (selectedSections : List String) (overrides : String → Option Nat)
    (generatePDFs : Bool) (render : String → String) :
    Except String (List SectionOut) :=
  buildSections client maxRetries generatePDFs render
    (buildSectionWork selectedSections overrides) 0

example :
    buildRun (fun _ => .failure none "network down") 3
        ["nonexistent_section_xyz"] (fun _ => none) false id = .ok [] :=
  rfl

example :
    (processSection (fun k => .response (some ("c" ++ toString k)) ⟨some 1, some 2, some 3⟩)
        3 ⟨"s", "S", 2, "d"⟩ 2 false id 0).2 =
      [.request 0 0, .chunkDone 0, .request 1 1, .chunkDone 1,
       .writeCombined "s/s.txt" "c0\n\n---\n\nc1",
       .zipWrite "s.zip" [("s/s.txt", "c0\n\n---\n\nc1")]] :=
  rfl

/-! ## Heap view of the cost tracker

For aliasing questions the relevant JS objects are made explicit: the
tracker's `totalUsage` record is a mutable usage object at an address;
the `{...totalUsage}` spreads in `getTotalUsage`/`getSummary` allocate
fresh usage objects; `getSummary`'s `pricing` field is the very object
returned by `getModelPricing(model)`, i.e. the entry object stored in the
module-level `MODEL_PRICING` table (or the `DEFAULT_PRICING` object).
Usage objects and pricing objects live in separate address spaces, which is
faithful here because no code path stores one kind into the other.  The
heap view covers the numeric resolutions (table entry or default); model
names hitting an inherited `Object.prototype` member are a pricing-lookup
concern settled with `getModelPricing` itself. -/

/-- The object store: pricing object number `i` is the `i`-th
`MODEL_PRICING` entry, with the `DEFAULT_PRICING` object above the table. -/
structure Heap where
  nextAddr : Nat
  usageObjs : Nat → Usage
  pricingObjs : Nat → Pricing

/-- The initial store: the pricing table objects, no usage objects yet. -/
def initialHeap : Heap :=
  { nextAddr := 0,
    usageObjs := fun _ => ⟨0, 0, 0⟩,
    pricingObjs := fun a => (MODEL_PRICING.getD a ("", DEFAULT_PRICING)).2 }

/-- The address of the object the pricing resolution returns for table or
default hits: the same tiering as `numericModelPricing`, but yielding the
identity of the table entry (or the default object) rather than a copy of
its value. -/
def getModelPricingAddr (model : String) : Nat :=
  match MODEL_PRICING.findIdx? (fun e => e.1 == model) with
  | some i => i
  | none =>
    let modelLower := jsToLower model
    match MODEL_PRICING.findIdx?
        (fun e => jsStartsWith modelLower e.1 || jsStartsWith e.1 modelLower) with
    | some i => i
    | none => MODEL_PRICING.length

/-- Overwrite the usage object at an address (a JS field assignment on
that object). -/
def writeUsageObj (h : Heap) (a : Nat) (v : Usage) : Heap :=
  { h with usageObjs := fun b => if b = a then v else h.usageObjs b }

/-- `pricingObject.input = v` on the pricing object at an address. -/
def writePricingInput (h : Heap) (a : Nat) (v : ℚ) : Heap :=
  { h with
    pricingObjs := fun b =>
      if b = a then ⟨v, (h.pricingObjs b).output⟩ else h.pricingObjs b }

/-- Allocate a fresh usage object. -/
def allocUsage (h : Heap) (v : Usage) : Heap × Nat :=
  ({ h with
      nextAddr := h.nextAddr + 1,
      usageObjs := fun b => if b = h.nextAddr then v else h.usageObjs b },
   h.nextAddr)

/-- The closure state of `createCostTracker` in the heap view: the model
string, the address of the mutable `totalUsage` object, and the
`totalCost` number (a value, not an object). -/
structure TrackerH where
  model : String
  usageAddr : Nat
  totalCost : ℚ

/-- `createCostTracker(model)`: allocates the `totalUsage` object. -/
def createCostTrackerH (h : Heap) (model : String) : Heap × TrackerH :=
  let p := allocUsage h ⟨0, 0, 0⟩
  (p.1, ⟨model, p.2, 0⟩)

/-- `getModelPricing` in the heap view: reads the current state of the
resolved pricing object. -/
def heapPricing (h : Heap) (model : String) : Pricing :=
  h.pricingObjs (getModelPricingAddr model)

/-- `calculateCost` in the heap view (reads the live pricing table). -/
def calculateCostH (h : Heap) (u : Usage) (model : String) : ℚ :=
  let p := heapPricing h model
  ((u.promptTokens : ℚ) / 1000) * p.input +
    ((u.completionTokens : ℚ) / 1000) * p.output

/-- `addUsage` in the heap view: mutates the tracker's usage object in
place and recomputes `totalCost` against the live pricing table. -/
def addUsageH (h : Heap) (t : TrackerH) (u : OptUsage) : Heap × TrackerH :=
  let cur := h.usageObjs t.usageAddr
  let tu : Usage :=
    ⟨cur.promptTokens + u.promptTokens.getD 0,
     cur.completionTokens + u.completionTokens.getD 0,
     cur.totalTokens + u.totalTokens.getD 0⟩
  (writeUsageObj h t.usageAddr tu,
   ⟨t.model, t.usageAddr, calculateCostH h tu t.model⟩)

/-- `getTotalUsage`: `{ ...totalUsage }` allocates a fresh copy and
returns its address. -/
def getTotalUsageH (h : Heap) (t : TrackerH) : Heap × Nat :=
  allocUsage h (h.usageObjs t.usageAddr)

/-- The object returned by `getSummary`: `pricing` is an address into the
shared table, `usage` the address of a fresh copy; `cost` and the
breakdown are numbers computed at call time. -/
structure SummaryH where
  model : String
  pricingAddr : Nat
  usageAddr : Nat
  cost : ℚ
  inputCost : ℚ
  outputCost : ℚ

/-- `getSummary` in the heap view. -/
def getSummaryH (h : Heap) (t : TrackerH) : Heap × SummaryH :=
  let p := heapPricing h t.model
  let u := h.usageObjs t.usageAddr
  let alloc := allocUsage h u
  (alloc.1,
   ⟨t.model, getModelPricingAddr t.model, alloc.2, t.totalCost,
    ((u.promptTokens : ℚ) / 1000) * p.input,
    ((u.completionTokens : ℚ) / 1000) * p.output⟩)

example : getModelPricingAddr "gpt-4" = 4 := rfl
example : initialHeap.pricingObjs 4 = ⟨0.03, 0.06⟩ := rfl

/-- Aliasing scenario, step 1: a `gpt-4` tracker on the initial store. -/
def c9Tracker : Heap × TrackerH := createCostTrackerH initialHeap "gpt-4"

/-- Step 2: one `addUsage({promptTokens:1000, completionTokens:500,
totalTokens:1500})`. -/
def c9Added : Heap × TrackerH :=
  addUsageH c9Tracker.1 c9Tracker.2 ⟨some 1000, some 500, some 1500⟩

/-- Step 3: `getSummary()` — its `pricing` field aliases the table entry. -/
def c9Summary : Heap × SummaryH := getSummaryH c9Added.1 c9Added.2

/-- Step 4: the client mutates the returned summary in place:
`summary.pricing.input = 100`. -/
def c9Mutated : Heap := writePricingInput c9Summary.1 c9Summary.2.pricingAddr 100

/-- Step 5: a subsequent no-op `addUsage({})`-like call with zero deltas,
which recomputes `totalCost` against the (now corrupted) live table. -/
def c9After : Heap × TrackerH := addUsageH c9Mutated c9Added.2 ⟨some 0, some 0, some 0⟩

/-- The same step 5 without the client mutation of step 4, for
comparison. -/
def c9AfterNoMut : Heap × TrackerH :=
  addUsageH c9Summary.1 c9Added.2 ⟨some 0, some 0, some 0⟩

/-! ## Auxiliary predicates used in theorem statements -/

/-- A call outcome that fails the current attempt without being fatal:
a completion with empty/missing content (the JS `!content` check), or a
rejection whose status is not 401 (including 429 and status-less network
errors). -/
def nonFatalFail : CallResult → Prop
  | .response c _ => c.getD "" = ""
  | .failure s _ => s ≠ some 401

/-- The message recorded in `lastError` for a non-fatally-failing call. -/
def failMsg : CallResult → String
  | .response _ _ => emptyResponseMsg
  | .failure _ m => m

/-- Whether a coordinator event is a disk write of generated section text. -/
def PEvent.isWrite : PEvent → Bool
  | .writeCombined _ _ => true
  | _ => false

/-- Whether a coordinator event is a client request for a given chunk. -/
def PEvent.isRequestFor (n : Nat) : PEvent → Bool
  | .request c _ => c = n
  | _ => false

/-! ## Theorems -/

/-- C1: the claim says that with `includeSourceFiles = false` and
`includePdfs = false` the section archive contains no filtered entries, and
that in a `generatePDFs = false` run the combined `.txt` is never included.
The code contradicts this (and its own comment "only include PDFs, not
source txt files"): with both flags false, `extensions` is empty, so
`extensions.length > 0 ? extensions : null` passes `null` — no filter at
all — and every file of the section directory, including the combined
`.txt`, is archived.  Evaluated here at the failing input. -/
theorem C1_both_flags_false_archives_everything :
    createSectionZip "core_prompts" [("core_prompts.txt", "combined text")] false false =
      [("core_prompts/core_prompts.txt", "combined text")] ∧
    createSectionZip "core_prompts" [("core_prompts.txt", "combined text")] false false ≠
      [] ∧
    ((processSection (fun k => .response (some ("e" ++ toString k)) ⟨some 1, some 1, some 2⟩)
          3 ⟨"core_prompts", "Core Edition Prompts", 12, "d"⟩ 2 false id 0).1.map
        SectionOut.zipEntries) =
      .ok [("core_prompts/core_prompts.txt", "e0\n\n---\n\ne1")] := by
  refine ⟨rfl, ?_, rfl⟩
  decide

/-- C10: with `maxRetries = 0` the attempt loop `for (attempt = 1;
attempt <= maxRetries; ...)` never runs, so `generateChunk` rejects without
any client invocation (the result holds for every client), reporting 0
attempts and `Unknown error` as the underlying message. -/
theorem C10_zero_retries_rejects_without_calling (client : Client) :
    generateChunk client 0 =
      (.error "Failed to generate content after 0 attempts: Unknown error", 0) :=
  rfl

/-- C7 counterexample: the upstream 401 error's own message is not
surfaced; `generateChunk` replaces it with the fixed
`Invalid OpenAI API key` message, so the rejected-credential error is not
propagated verbatim as the claim states. -/
theorem C7_upstream_message_replaced :
    generateChunk (fun _ => .failure (some 401) "Incorrect API key provided: sk-abc") 3 =
      (.error invalidKeyMsg, 1) ∧
    invalidKeyMsg ≠ "Incorrect API key provided: sk-abc" := by
  refine ⟨rfl, ?_⟩
  decide

/-- C7 amended: when the first upstream call fails with status 401,
`generateChunk` fails immediately after that single invocation — no retry,
regardless of how many attempts remain — raising the fixed
`Invalid OpenAI API key` error (the upstream message is discarded). -/
theorem C7_auth_failure_is_fatal (client : Client) (maxRetries : Nat)
    (message : String) (hmr : 1 ≤ maxRetries)
    (h : client 0 = .failure (some 401) message) :
    generateChunk client maxRetries = (.error invalidKeyMsg, 1) := by
  cases maxRetries with
  | zero => omega
  | succ m =>
    unfold generateChunk generateChunkFrom
    rw [generateChunkAux, h]
    simp

/-- Witness for `C7_auth_failure_is_fatal` at a concrete client and
`maxRetries = 7`. -/
theorem C7_auth_failure_is_fatal_witness :
    generateChunk (fun _ => .failure (some 401) "rejected credential") 7 =
      (.error invalidKeyMsg, 1) :=
  C7_auth_failure_is_fatal (fun _ => .failure (some 401) "rejected credential") 7
    "rejected credential" (by decide) rfl

/-- Helper: if every client call fails non-fatally, the attempt loop
consumes all remaining attempts and exits with the exhaustion error naming
the last failure's message. -/
theorem generateChunkAux_all_fail (client : Client) (maxRetries : Nat)
    (hf : ∀ k, nonFatalFail (client k)) :
    ∀ r calls lastErr, 1 ≤ r →
      generateChunkAux client maxRetries r calls lastErr =
        (.error (exhaustMsg maxRetries (some (failMsg (client (calls + r - 1))))),
         calls + r) := by
  intro r
  induction r with
  | zero => intro calls lastErr h; omega
  | succ r ih =>
    intro calls lastErr _h
    rw [generateChunkAux]
    cases hc : client calls with
    | response content usage =>
      have hempty : content.getD "" = "" := by
        have := hf calls
        rw [hc] at this
        exact this
      dsimp only
      rw [if_pos hempty]
      cases r with
      | zero =>
        rw [generateChunkAux]
        simp [hc, failMsg]
      | succ r' =>
        rw [ih (calls + 1) (some emptyResponseMsg) (by omega)]
        have h1 : calls + 1 + (r' + 1) - 1 = calls + (r' + 1 + 1) - 1 := by omega
        have h2 : calls + 1 + (r' + 1) = calls + (r' + 1 + 1) := by omega
        rw [h1, h2]
    | failure status message =>
      have hst : ¬ status = some 401 := by
        have := hf calls
        rw [hc] at this
        exact this
      dsimp only
      rw [if_neg hst]
      cases r with
      | zero =>
        rw [generateChunkAux]
        simp [hc, failMsg]
      | succ r' =>
        rw [ih (calls + 1) (some message) (by omega)]
        have h1 : calls + 1 + (r' + 1) - 1 = calls + (r' + 1 + 1) - 1 := by omega
        have h2 : calls + 1 + (r' + 1) = calls + (r' + 1 + 1) := by omega
        rw [h1, h2]

/-- C3: if every client call fails non-fatally (in particular when every
call yields empty or missing generated text) and `maxRetries ≥ 1`, then
`generateChunk` rejects after exactly `maxRetries` client invocations with
the exhaustion error naming the attempt count and the message of the last
underlying failure (the empty-response message in the empty-content case);
with `maxRetries = 1` this is exactly 1 invocation. -/
theorem C3_exhaustion_names_count_and_last_message (client : Client)
    (maxRetries : Nat) (hmr : 1 ≤ maxRetries)
    (hf : ∀ k, nonFatalFail (client k)) :
    generateChunk client maxRetries =
      (.error (exhaustMsg maxRetries (some (failMsg (client (maxRetries - 1))))),
       maxRetries) := by
  unfold generateChunk generateChunkFrom
  rw [generateChunkAux_all_fail client maxRetries hf maxRetries 0 none hmr]
  simp

/-- Witness for `C3_exhaustion_names_count_and_last_message`: an
always-empty client stub and `maxRetries = 1` reject after exactly 1
invocation with the empty-response message embedded in the exhaustion
error. -/
theorem C3_exhaustion_witness :
    generateChunk (fun _ => .response (some "") ⟨none, none, none⟩) 1 =
      (.error "Failed to generate content after 1 attempts: Empty response from OpenAI API",
       1) :=
  C3_exhaustion_names_count_and_last_message
    (fun _ => .response (some "") ⟨none, none, none⟩) 1 (by decide) (fun _ => rfl)

/-- Helper: every entry of the pricing table has `output ≥ input`. -/
theorem pricing_table_sound : ∀ e ∈ MODEL_PRICING, e.2.input ≤ e.2.output := by
  intro e he
  simp only [List.mem_cons, List.not_mem_nil, or_false, MODEL_PRICING] at he
  rcases he with rfl | rfl | rfl | rfl | rfl | rfl | rfl | rfl | rfl | rfl | rfl | rfl |
    rfl | rfl | rfl | rfl | rfl <;> norm_num

/-- Helper: away from the inherited-prototype member names,
`getModelPricing` is the numeric resolution. -/
theorem getModelPricing_agrees_off_prototype (model : String)
    (h : model ∉ OBJECT_PROTO_KEYS) :
    getModelPricing model = .pricing (numericModelPricing model) := by
  unfold getModelPricing numericModelPricing modelPricingIndex
  cases hx : MODEL_PRICING.find? (fun e => e.1 == model) with
  | some e => rfl
  | none =>
    dsimp only
    rw [if_neg h]
    cases hp : MODEL_PRICING.find?
        (fun e => jsStartsWith (jsToLower model) e.1 ||
          jsStartsWith e.1 (jsToLower model)) <;> rfl

/-- C2 counterexample, two independent failures of the claim.  First,
`getModelPricing` is not total over pricing pairs: the tier-1 read
`MODEL_PRICING[model]` walks the prototype chain, so the free-form model
string `"constructor"` passes the truthiness check on the inherited
`Object.prototype` member and that non-pricing object is returned — no
`{input, output}` pair with `output ≥ input` exists for it.  Second, the
prefix tier is not a longest-prefix match: it accepts the first
insertion-order entry related by prefixing in either direction, so
`"gpt-4-32k-0613x"` resolves to the `gpt-4` family rate while the
spec-worded longest-prefix resolution (`specPricingFor`) yields the
`gpt-4-32k` rate. -/
theorem C2_proto_hit_and_first_match :
    getModelPricing "constructor" = .protoMember "constructor" ∧
    getModelPricing "gpt-4-32k-0613x" = .pricing ⟨0.03, 0.06⟩ ∧
    specPricingFor "gpt-4-32k-0613x" = ⟨0.06, 0.12⟩ ∧
    getModelPricing "gpt-4-32k-0613x" ≠ .pricing (specPricingFor "gpt-4-32k-0613x") := by
  have h1 : getModelPricing "gpt-4-32k-0613x" = .pricing ⟨0.03, 0.06⟩ := rfl
  have h2 : specPricingFor "gpt-4-32k-0613x" = ⟨0.06, 0.12⟩ := rfl
  refine ⟨rfl, h1, h2, ?_⟩
  rw [h1, h2]
  intro h
  injection h with h'
  have := congrArg Pricing.input h'
  norm_num at this

/-- C2 amended: for every model string that is not one of the
`Object.prototype` member names, `getModelPricing` deterministically
returns a genuine rate record with `output ≥ input` — the default or a
table entry related to the model by exact own-key match or by the
bidirectional FIRST-match prefix rule (table insertion order, not longest
prefix); but for a prototype member name with no own entry, the tier-1
truthiness check passes on the inherited member and that non-pricing
object is returned as-is. -/
theorem C2_pricing_valid_off_prototype (model : String) :
    (model ∉ OBJECT_PROTO_KEYS →
      ∃ p : Pricing, getModelPricing model = .pricing p ∧
        p.input ≤ p.output ∧
        (p = DEFAULT_PRICING ∨
          ∃ e ∈ MODEL_PRICING, p = e.2 ∧
            (e.1 = model ∨
              (jsStartsWith (jsToLower model) e.1 ||
                jsStartsWith e.1 (jsToLower model)) = true))) ∧
    (model ∈ OBJECT_PROTO_KEYS →
      MODEL_PRICING.find? (fun e => e.1 == model) = none →
      getModelPricing model = .protoMember model) := by
  constructor
  · intro hoff
    rw [getModelPricing_agrees_off_prototype model hoff]
    refine ⟨numericModelPricing model, rfl, ?_⟩
    unfold numericModelPricing
    cases hx : MODEL_PRICING.find? (fun e => e.1 == model) with
    | some e =>
      dsimp only
      have hmem := List.mem_of_find?_eq_some hx
      have hkey : e.1 = model := by
        have := List.find?_some hx
        exact eq_of_beq this
      exact ⟨pricing_table_sound e hmem, Or.inr ⟨e, hmem, rfl, Or.inl hkey⟩⟩
    | none =>
      dsimp only
      cases hp : MODEL_PRICING.find?
          (fun e => jsStartsWith (jsToLower model) e.1 ||
            jsStartsWith e.1 (jsToLower model)) with
      | some e =>
        dsimp only
        have hmem := List.mem_of_find?_eq_some hp
        have hrel := List.find?_some hp
        exact ⟨pricing_table_sound e hmem, Or.inr ⟨e, hmem, rfl, Or.inr hrel⟩⟩
      | none =>
        dsimp only
        refine ⟨?_, Or.inl rfl⟩
        norm_num [DEFAULT_PRICING]
  · intro hmem hnone
    unfold getModelPricing modelPricingIndex
    rw [hnone]
    dsimp only
    rw [if_pos hmem]

/-- Witness for `C2_pricing_valid_off_prototype`: both branches exercised
at concrete models — a versioned model off the prototype corner gets a
valid table rate, and `"constructor"` gets the inherited member. -/
theorem C2_pricing_valid_witness :
    (∃ p : Pricing, getModelPricing "gpt-4-32k-0613x" = .pricing p ∧
        p.input ≤ p.output ∧
        (p = DEFAULT_PRICING ∨
          ∃ e ∈ MODEL_PRICING, p = e.2 ∧
            (e.1 = "gpt-4-32k-0613x" ∨
              (jsStartsWith (jsToLower "gpt-4-32k-0613x") e.1 ||
                jsStartsWith e.1 (jsToLower "gpt-4-32k-0613x")) = true))) ∧
    getModelPricing "constructor" = .protoMember "constructor" :=
  ⟨(C2_pricing_valid_off_prototype "gpt-4-32k-0613x").1 (by decide),
   (C2_pricing_valid_off_prototype "constructor").2 (by decide) rfl⟩

/-- Helper: `calculateCost` of the zero usage record is 0. -/
theorem calculateCost_zero (model : String) : calculateCost ⟨0, 0, 0⟩ model = 0 := by
  simp [calculateCost]

/-- Helper: the usage component of the tracker fold is the pure counter
fold, from any starting state. -/
theorem tracker_foldl_usage (model : String) (us : List OptUsage) :
    ∀ s : TrackerState,
      (us.foldl (addUsage model) s).totalUsage = us.foldl accUsage s.totalUsage := by
  induction us with
  | nil => intro s; rfl
  | cons u us ih =>
    intro s
    simpa [addUsage] using ih (addUsage model s u)

/-- Helper: the no-drift invariant `totalCost = calculateCost totalUsage`
is preserved by the tracker fold. -/
theorem tracker_foldl_cost (model : String) (us : List OptUsage) :
    ∀ s : TrackerState, s.totalCost = calculateCost s.totalUsage model →
      (us.foldl (addUsage model) s).totalCost =
        calculateCost (us.foldl (addUsage model) s).totalUsage model := by
  induction us with
  | nil => intro s hs; exact hs
  | cons u us ih =>
    intro s _hs
    exact ih (addUsage model s u) rfl

/-- C6: for every usage sequence fed to the tracker's `addUsage` (missing
fields contributing 0, never failing — `addUsage` is a total function),
the accumulated usage is the componentwise sum of the inputs and the value
`getTotalCost` returns equals `calculateCost` applied fresh to the
accumulated usage and the tracker's model: no drift. -/
theorem C6_tracker_accumulates_and_costs_fresh (model : String)
    (us : List OptUsage) :
    (us.foldl (addUsage model) initTracker).totalUsage = sumOptUsage us ∧
    getTotalCost (us.foldl (addUsage model) initTracker) =
      calculateCost (us.foldl (addUsage model) initTracker).totalUsage model := by
  constructor
  · exact tracker_foldl_usage model us initTracker
  · exact tracker_foldl_cost model us initTracker (by
      simpa [initTracker] using (calculateCost_zero model).symm)

/-- Helper: a call that resolves with nonempty content succeeds on the
first attempt, consuming exactly one client invocation. -/
theorem generateChunkFrom_success (client : Client) (maxRetries calls : Nat)
    (hmr : 1 ≤ maxRetries) (c : String) (u : OptUsage)
    (hc : client calls = .response (some c) u) (hne : c ≠ "") :
    generateChunkFrom client maxRetries calls = (.ok (c, extractUsage u), calls + 1) := by
  cases maxRetries with
  | zero => omega
  | succ m =>
    unfold generateChunkFrom
    conv =>
      lhs
      rw [generateChunkAux, hc]
    simp [hne]

/-- Helper: with an always-succeeding client stub, the orchestrator loop
consumes one invocation per chunk, pushes contents in order, folds usage,
and emits a `call`/`progress` event pair per chunk. -/
theorem generateSectionAux_ok (client : Client) (maxRetries : Nat)
    (hmr : 1 ≤ maxRetries) (c : Nat → String) (u : Nat → OptUsage)
    (hcl : ∀ k, client k = .response (some (c k)) (u k))
    (hne : ∀ k, c k ≠ "") :
    ∀ (remaining i : Nat) (chunks : List String) (tu : Usage) (tr : List SEvent),
      generateSectionAux client maxRetries remaining i i chunks tu tr =
        (.ok (chunks ++ (List.range' i remaining).map c,
              ((List.range' i remaining).map (fun k => extractUsage (u k))).foldl (· + ·) tu),
         tr ++ (List.range' i remaining).flatMap
            (fun k => [.call k, .progress k (c k) (extractUsage (u k))])) := by
  intro remaining
  induction remaining with
  | zero =>
    intro i chunks tu tr
    simp [generateSectionAux, List.range']
  | succ r ih =>
    intro i chunks tu tr
    rw [generateSectionAux,
      generateChunkFrom_success client maxRetries i hmr (c i) (u i) (hcl i) (hne i)]
    dsimp only
    have hone : i + 1 - i = 1 := by omega
    have hev : callEvents i 1 = [SEvent.call i] := by
      simp [callEvents, List.range_succ]
    rw [hone, hev, ih (i + 1)]
    rw [List.range'_succ]
    simp [List.append_assoc]

/-- C4: for every `numChunks = n ≥ 1`, `maxRetries ≥ 1`, valid section id,
and client stub resolving every call with (distinct or not) nonempty
content, `generateSection` returns the n chunk texts in call order and
`totalUsage` equal to the componentwise sum of the n per-call usages, and
the event trace is exactly `call 0, progress 0, call 1, progress 1, ...`:
`onProgress` runs exactly n times with indices 0..n-1 in order, each
invocation after its chunk succeeds and before the next chunk's request. -/
theorem C4_generateSection_orders_chunks_and_progress (n maxRetries : Nat)
    (sid : String) (sec : Section) (c : Nat → String) (u : Nat → OptUsage)
    (hsec : getSectionById sid = some sec) (_hn : 1 ≤ n) (hmr : 1 ≤ maxRetries)
    (hne : ∀ k, c k ≠ "") :
    generateSection (fun k => .response (some (c k)) (u k)) sid n maxRetries =
      (.ok ((List.range n).map c,
            sumUsageList ((List.range n).map (fun k => extractUsage (u k)))),
       (List.range n).flatMap
          (fun k => [.call k, .progress k (c k) (extractUsage (u k))])) := by
  unfold generateSection
  rw [hsec]
  rw [generateSectionAux_ok (fun k => .response (some (c k)) (u k)) maxRetries hmr c u
      (fun _ => rfl) hne n 0 [] ⟨0, 0, 0⟩ []]
  simp [sumUsageList, List.range_eq_range']

/-- Witness for `C4_generateSection_orders_chunks_and_progress` at
`n = 3`, distinct contents per call, concrete usages. -/
theorem C4_generateSection_witness :
    generateSection
        (fun k => .response (some ("c" ++ toString k)) ⟨some 100, some 50, some 150⟩)
        "core_prompts" 3 3 =
      (.ok (["c0", "c1", "c2"], ⟨300, 150, 450⟩),
       [.call 0, .progress 0 "c0" ⟨100, 50, 150⟩,
        .call 1, .progress 1 "c1" ⟨100, 50, 150⟩,
        .call 2, .progress 2 "c2" ⟨100, 50, 150⟩]) := by
  have h := C4_generateSection_orders_chunks_and_progress 3 3 "core_prompts"
    ⟨"core_prompts", "Core Edition Prompts", 12,
      "300 strategic prompts → 12 categories × 25 prompts"⟩
    (fun k => "c" ++ toString k) (fun _ => ⟨some 100, some 50, some 150⟩)
    rfl (by decide) (by decide)
    (fun k => by
      intro hk
      have hd := congrArg String.data hk
      rw [String.data_append] at hd
      simp at hd)
  exact h

/-- C5 counterexample: a run whose configuration names only a section id
absent from the catalog does not fail at all.  `build`'s work-list loop
guards with `if (section)` and silently drops the unknown id, so the
coordinator completes the run successfully with zero sections — no
"unknown section id" error is ever raised on this path, contradicting the
claim that such a failure is fatal and raised before any work. -/
theorem C5_unknown_id_is_silently_skipped :
    getSectionById "nonexistent_section_xyz" = none ∧
    buildRun (fun _ => .failure none "network down") 3 ["nonexistent_section_xyz"]
        (fun _ => none) false id = .ok [] :=
  ⟨rfl, rfl⟩

/-- C5 amended: `generateSection` does fail synchronously with an
`Unknown section ID` error before any client call (its event trace is
empty) when handed an unknown id; but the Build Coordinator itself never
takes that path — `build` resolves the work list with `if (section)` and
silently skips configured ids absent from the catalog, continuing the run
with the remaining sections. -/
theorem C5_lookup_fails_early_but_build_skips (sid : String)
    (h : getSectionById sid = none) :
    (∀ (client : Client) (n maxRetries : Nat),
        generateSection client sid n maxRetries =
          (.error ("Unknown section ID: " ++ sid), [])) ∧
    (∀ (sel : List String) (overrides : String → Option Nat),
        buildSectionWork (sid :: sel) overrides = buildSectionWork sel overrides) := by
  constructor
  · intro client n maxRetries
    unfold generateSection
    rw [h]
  · intro sel overrides
    unfold buildSectionWork
    rw [List.filterMap_cons, h]
    rfl

/-- Witness for `C5_lookup_fails_early_but_build_skips` at the concrete
unknown id, instantiated at a concrete client and selection. -/
theorem C5_lookup_fails_early_witness :
    generateSection (fun _ => .failure none "network down") "nonexistent_section_xyz" 2 3 =
      (.error "Unknown section ID: nonexistent_section_xyz", []) ∧
    buildSectionWork ["nonexistent_section_xyz", "branding"] (fun _ => none) =
      buildSectionWork ["branding"] (fun _ => none) := by
  have h := C5_lookup_fails_early_but_build_skips "nonexistent_section_xyz" rfl
  exact ⟨h.1 (fun _ => .failure none "network down") 2 3,
         h.2 ["branding"] (fun _ => none)⟩

/-- Helper: with an always-succeeding client stub, the chunk-collection
loop of `processSection` consumes one invocation per chunk and emits a
`request`/`chunkDone` pair per chunk — and no write event. -/
theorem processChunksAux_ok (client : Client) (maxRetries : Nat)
    (hmr : 1 ≤ maxRetries) (c : Nat → String) (u : Nat → OptUsage)
    (hcl : ∀ k, client k = .response (some (c k)) (u k))
    (hne : ∀ k, c k ≠ "") :
    ∀ (remaining i : Nat) (contents : List String) (tr : List PEvent),
      processChunksAux client maxRetries remaining i i contents tr =
        (.ok (contents ++ (List.range' i remaining).map c, i + remaining),
         tr ++ (List.range' i remaining).flatMap
            (fun k => [.request k k, .chunkDone k])) := by
  intro remaining
  induction remaining with
  | zero =>
    intro i contents tr
    simp [processChunksAux, List.range']
  | succ r ih =>
    intro i contents tr
    rw [processChunksAux,
      generateChunkFrom_success client maxRetries i hmr (c i) (u i) (hcl i) (hne i)]
    dsimp only
    have hone : i + 1 - i = 1 := by omega
    have hev : reqEvents i i 1 = [PEvent.request i i] := by
      simp [reqEvents, List.range_succ]
    rw [hone, hev, ih (i + 1)]
    rw [List.range'_succ]
    have harith : i + 1 + r = i + (r + 1) := by omega
    rw [harith]
    simp [List.append_assoc]

/-- C8 counterexample: in a two-chunk `processSection` run, chunk 0's text
is not persisted before chunk 1's request is issued — the code collects
chunk texts in memory ("don't write individual files") and performs its
only write, of the combined file, after all chunks: every event preceding
the chunk-1 request is write-free. -/
theorem C8_no_write_before_second_request :
    (processSection (fun k => .response (some ("c" ++ toString k)) ⟨some 1, some 2, some 3⟩)
        3 ⟨"s", "S", 2, "d"⟩ 2 false id 0).2 =
      [.request 0 0, .chunkDone 0, .request 1 1, .chunkDone 1,
       .writeCombined "s/s.txt" "c0\n\n---\n\nc1",
       .zipWrite "s.zip" [("s/s.txt", "c0\n\n---\n\nc1")]] ∧
    (((processSection (fun k => .response (some ("c" ++ toString k)) ⟨some 1, some 2, some 3⟩)
          3 ⟨"s", "S", 2, "d"⟩ 2 false id 0).2.takeWhile
        (fun e => !(e.isRequestFor 1))).all (fun e => !(e.isWrite))) = true :=
  ⟨rfl, rfl⟩

/-- C8 amended: the sequencing part of the claim holds — chunk N's text is
generated and appended to the in-memory list before chunk N+1's request is
issued, and the combined artifact is written exactly once, fully formed,
before the archive step — but no per-chunk persistence happens: the only
write is the single combined one after all chunks.  The full run shape is
pinned down for every always-succeeding stub. -/
theorem C8_sequential_chunks_single_combined_write (sec : Section)
    (n maxRetries : Nat) (generatePDFs : Bool) (render : String → String)
    (c : Nat → String) (u : Nat → OptUsage)
    (hmr : 1 ≤ maxRetries) (hne : ∀ k, c k ≠ "") :
    processSection (fun k => .response (some (c k)) (u k)) maxRetries sec n
        generatePDFs render 0 =
      (.ok ⟨sec.id, n, sec.id ++ "/" ++ (sec.id ++ ".txt"),
            if generatePDFs then some (sec.id ++ "/" ++ (sec.id ++ "_chunk_01.pdf")) else none,
            sec.id ++ ".zip",
            createSectionZip sec.id
              ([(sec.id ++ ".txt", String.intercalate sectionSeparator ((List.range n).map c))] ++
                (if generatePDFs then
                  [(sec.id ++ "_chunk_01.pdf",
                    render (String.intercalate sectionSeparator ((List.range n).map c)))]
                 else []))
              false generatePDFs,
            n⟩,
       (List.range n).flatMap (fun k => [.request k k, .chunkDone k]) ++
         [.writeCombined (sec.id ++ "/" ++ (sec.id ++ ".txt"))
            (String.intercalate sectionSeparator ((List.range n).map c))] ++
         (if generatePDFs then [.renderPdf (sec.id ++ "/" ++ (sec.id ++ "_chunk_01.pdf"))] else []) ++
         [.zipWrite (sec.id ++ ".zip")
            (createSectionZip sec.id
              ([(sec.id ++ ".txt", String.intercalate sectionSeparator ((List.range n).map c))] ++
                (if generatePDFs then
                  [(sec.id ++ "_chunk_01.pdf",
                    render (String.intercalate sectionSeparator ((List.range n).map c)))]
                 else []))
              false generatePDFs)]) := by
  unfold processSection
  rw [processChunksAux_ok (fun k => .response (some (c k)) (u k)) maxRetries hmr c u
      (fun _ => rfl) hne n 0 [] []]
  simp [List.range_eq_range']

/-- Witness for `C8_sequential_chunks_single_combined_write` at a concrete
two-chunk section with PDFs disabled. -/
theorem C8_sequential_witness :
    processSection (fun k => .response (some ("w" ++ toString k)) ⟨some 1, some 2, some 3⟩)
        3 ⟨"s", "S", 2, "d"⟩ 2 false id 0 =
      (.ok ⟨"s", 2, "s/s.txt", none, "s.zip", [("s/s.txt", "w0\n\n---\n\nw1")], 2⟩,
       [.request 0 0, .chunkDone 0, .request 1 1, .chunkDone 1,
        .writeCombined "s/s.txt" "w0\n\n---\n\nw1",
        .zipWrite "s.zip" [("s/s.txt", "w0\n\n---\n\nw1")]]) := by
  have h := C8_sequential_chunks_single_combined_write ⟨"s", "S", 2, "d"⟩ 2 3 false id
    (fun k => "w" ++ toString k) (fun _ => ⟨some 1, some 2, some 3⟩) (by decide)
    (fun k => by
      intro hk
      have hd := congrArg String.data hk
      rw [String.data_append] at hd
      simp at hd)
  exact h

/-- C9 counterexample: the usage objects returned by
`getTotalUsage`/`getSummary` are indeed spread copies, but the summary's
`pricing` field is NOT a copy — it aliases the shared `MODEL_PRICING`
entry object.  Mutating the returned summary through that field
(`summary.pricing.input = 100`) corrupts the table, so a subsequent
`addUsage`/`getTotalCost` pair returns a different cost than the same
calls would without the mutation: later results are affected, refuting
the claim. -/
theorem C9_summary_pricing_aliases_shared_table :
    c9Summary.2.pricingAddr = getModelPricingAddr "gpt-4" ∧
    heapPricing c9Mutated "gpt-4" = ⟨100, 0.06⟩ ∧
    c9After.2.totalCost ≠ c9AfterNoMut.2.totalCost := by
  refine ⟨rfl, rfl, ?_⟩
  have h1 : c9After.2.totalCost =
      ((1000 : ℕ) : ℚ) / 1000 * 100 + ((500 : ℕ) : ℚ) / 1000 * 0.06 := rfl
  have h2 : c9AfterNoMut.2.totalCost =
      ((1000 : ℕ) : ℚ) / 1000 * 0.03 + ((500 : ℕ) : ℚ) / 1000 * 0.06 := rfl
  rw [h1, h2]
  norm_num

/-- C9 amended: the usage objects handed out by `getTotalUsage` and
`getSummary` are defensive copies — they are freshly allocated, so
mutating them leaves the tracker's accumulated usage object (and hence
every later read of it) unchanged; the tracker's `totalCost` is a closure
number a caller cannot reach at all.  Only the summary's `pricing` field
aliases shared state (see the counterexample). -/
theorem C9_usage_copies_are_defensive (h : Heap) (t : TrackerH) (v w : Usage)
    (hfresh : t.usageAddr < h.nextAddr) :
    (writeUsageObj (getTotalUsageH h t).1 (getTotalUsageH h t).2 v).usageObjs
        t.usageAddr = h.usageObjs t.usageAddr ∧
    (writeUsageObj (getSummaryH h t).1 (getSummaryH h t).2.usageAddr w).usageObjs
        t.usageAddr = h.usageObjs t.usageAddr := by
  have hne : t.usageAddr ≠ h.nextAddr := Nat.ne_of_lt hfresh
  unfold getTotalUsageH getSummaryH allocUsage writeUsageObj
  dsimp only
  simp [hne]

/-- Witness for `C9_usage_copies_are_defensive` on a freshly created
tracker (its usage object at address 0, next free address 1). -/
theorem C9_usage_copies_witness :
    (writeUsageObj (getTotalUsageH c9Tracker.1 c9Tracker.2).1
        (getTotalUsageH c9Tracker.1 c9Tracker.2).2 ⟨7, 7, 7⟩).usageObjs
        c9Tracker.2.usageAddr = c9Tracker.1.usageObjs c9Tracker.2.usageAddr ∧
    (writeUsageObj (getSummaryH c9Tracker.1 c9Tracker.2).1
        (getSummaryH c9Tracker.1 c9Tracker.2).2.usageAddr ⟨8, 8, 8⟩).usageObjs
        c9Tracker.2.usageAddr = c9Tracker.1.usageObjs c9Tracker.2.usageAddr :=
  C9_usage_copies_are_defensive c9Tracker.1 c9Tracker.2 ⟨7, 7, 7⟩ ⟨8, 8, 8⟩ (by decide)

end NeonBuilder
